import Mathlib

/-!
Verification of the secure multi-engine database gateway of the
Accura8-Fastapi repository against its natural-language specification.

The development shallowly embeds the Python source:

* `app/helpers/security/fernet.py` — config encryption (ConfigCodec);
* `app/helpers/db_connectors.py` — connectors, `normalize_config`,
  `QueryValidator`, the deny/allow lists of `DatabaseConnector`;
* `app/exceptions/database_exceptions.py` — the error taxonomy and
  per-engine error handlers;
* `app/services/database/database_service.py` — `create_database`,
  the query pipeline;
* `app/controller/database.py` — the `/ask` route's inactive check.

External libraries are modelled at their contract: the Fernet cipher is an
invertible opaque token (the `cryptography` package guarantees
`decrypt (encrypt m) = m` under one key), `json.dumps`/`json.loads` is
modelled structurally (its key-stringification behaviour is kept), and
`sqlparse` outputs (statement type, keyword token list) are passed as
explicit arguments to the functions that consume them.
-/

namespace Accura8

/-! ## Python values

Mutually inductive model of the Python values that flow through the
gateway: JSON-style scalars, lists, and dicts whose keys are themselves
values (Python dict keys need not be strings). -/

mutual

inductive PyVal where
| str (s : String)
| int (n : Int)
| bool (b : Bool)
| pyNone
| list (xs : PyList)
| dict (es : PyDict)
deriving DecidableEq, Repr

inductive PyList where
| nil
| cons (v : PyVal) (tl : PyList)
deriving DecidableEq, Repr

inductive PyDict where
| nil
| cons (k : PyVal) (v : PyVal) (tl : PyDict)
deriving DecidableEq, Repr

end

/-! ## ConfigCodec (`app/helpers/security/fernet.py`)

`encrypt_config(config) = Fernet(key).encrypt(json.dumps(config).encode())`
and `decrypt_config` is `json.loads` of the Fernet decryption, both under
the same process-wide `settings.FERNET_ENCRYPTION_KEY` (modelled as
present and fixed; the `Settings` class does not itself declare that
field, but key loading is outside this subsystem).  The Fernet
layer is exact on bytes, so the round trip of the pair reduces to the
round trip of `json.loads ∘ json.dumps`, which we model structurally:
`json.dumps` stringifies non-string dict keys (str/int/bool/None keys are
converted with str()/true/false/null; any other key type raises
TypeError), and `json.loads` reads objects back with string keys. -/

/-- Key conversion performed by `json.dumps` on a dict key: string keys kept,
int/bool/None keys stringified, other key types raise TypeError (`none`). -/
def pyKeyToString : PyVal → Option String
| .str s => some s
| .int n => some (toString n)
| .bool b => some (if b then "true" else "false")
| .pyNone => some "null"
| .list _ => none
| .dict _ => none

mutual

/-- Structural model of `json.loads (json.dumps v)`: the value that survives a
serialization round trip, or `none` where `json.dumps` raises TypeError. -/
def jsonNormalize : PyVal → Option PyVal
| .str s => some (.str s)
| .int n => some (.int n)
| .bool b => some (.bool b)
| .pyNone => some .pyNone
| .list xs =>
    match jsonNormalizeList xs with
    | some ys => some (.list ys)
    | none => none
| .dict es =>
    match jsonNormalizeDict es with
    | some fs => some (.dict fs)
    | none => none

/-- Round-trip model for the elements of a Python list. -/
def jsonNormalizeList : PyList → Option PyList
| .nil => some .nil
| .cons v tl =>
    match jsonNormalize v, jsonNormalizeList tl with
    | some v', some tl' => some (.cons v' tl')
    | _, _ => none

/-- Round-trip model for the entries of a Python dict: keys are stringified. -/
def jsonNormalizeDict : PyDict → Option PyDict
| .nil => some .nil
| .cons k v tl =>
    match pyKeyToString k, jsonNormalize v, jsonNormalizeDict tl with
    | some ks, some v', some tl' => some (.cons (.str ks) v' tl')
    | _, _, _ => none

end

/-- Ciphertext produced by `Fernet.encrypt`.  The ciphertext bytes are opaque
to this subsystem; the `cryptography` library guarantees that decryption
under the same process-wide key returns exactly the encrypted plaintext, so
the token is modelled by the (JSON-normalized) value it encrypts. -/
structure FernetToken where
payload : PyVal
deriving DecidableEq, Repr

/-- `encrypt_config` from `app/helpers/security/fernet.py`:
serialize with `json.dumps`, then encrypt under the process-wide key.
`none` models the TypeError `json.dumps` raises on unserializable keys. -/
def encrypt_config (config : PyVal) : Option FernetToken :=
  match jsonNormalize config with
  | some v => some ⟨v⟩
  | none => none

/-- `decrypt_config` from `app/helpers/security/fernet.py`: decrypt under the
same process-wide key and `json.loads` the plaintext. -/
def decrypt_config (t : FernetToken) : PyVal :=
  t.payload

mutual

/-- A value is JSON-faithful when every dict key in it is a string: exactly
the values on which a `json.dumps`/`json.loads` round trip is the identity. -/
def jsonFaithful : PyVal → Bool
| .str _ => true
| .int _ => true
| .bool _ => true
| .pyNone => true
| .list xs => jsonFaithfulList xs
| .dict es => jsonFaithfulDict es

/-- JSON-faithfulness of the elements of a Python list. -/
def jsonFaithfulList : PyList → Bool
| .nil => true
| .cons v tl => jsonFaithful v && jsonFaithfulList tl

/-- JSON-faithfulness of the entries of a Python dict. -/
def jsonFaithfulDict : PyDict → Bool
| .nil => true
| .cons k v tl =>
    (match k with | .str _ => true | _ => false) && jsonFaithful v && jsonFaithfulDict tl

end

/-! ## Regular-expression model

The deny-list of `DatabaseConnector.DANGEROUS_PATTERNS` and the keyword
fallback table of `ErrorHandler` are Python `re` patterns built from
literals, `\s+`, `\s*`, `.*` / `.*?` and a final `$`.  They are embedded as
executable matchers in continuation style: a matcher consumes a prefix of
the character list and hands the rest to the continuation; `re.search`
existence then quantifies over start positions.  Greedy and lazy repetition
coincide for the Boolean question "does a match exist". -/

/-- Whitespace class of Python `\s`: space, tab, newline, carriage return,
vertical tab, form feed. -/
def isPyWs (c : Char) : Bool :=
  c = ' ' || c = '\t' || c = '\n' || c = '\r' || c = Char.ofNat 11 || c = Char.ofNat 12

/-- Continuation accepting anything: the end of a pattern. -/
def anyRest : List Char → Bool := fun _ => true

/-- Literal fragment of a pattern. -/
def litM (pat : List Char) (k : List Char → Bool) (cs : List Char) : Bool :=
  pat.isPrefixOf cs && k (cs.drop pat.length)

/-- Zero or more whitespace characters: the regex fragment `\s*`. -/
def wsStarM (k : List Char → Bool) : List Char → Bool
| [] => k []
| c :: rest => k (c :: rest) || (isPyWs c && wsStarM k rest)

/-- One or more whitespace characters: the regex fragment `\s+`. -/
def wsPlusM (k : List Char → Bool) : List Char → Bool
| [] => false
| c :: rest => isPyWs c && wsStarM k rest

/-- Any run of non-newline characters: the regex fragments `.*` and `.*?`. -/
def dotStarM (k : List Char → Bool) : List Char → Bool
| [] => k []
| c :: rest => k (c :: rest) || (c != '\n' && dotStarM k rest)

/-- The anchor `$` outside MULTILINE mode: end of input, or immediately
before a newline that is the last character. -/
def endAnchorM : List Char → Bool
| [] => true
| [c] => c = '\n'
| _ :: _ :: _ => false

/-- `re.search`: the matcher succeeds at some start position. -/
def searchM (m : List Char → Bool) : List Char → Bool
| [] => m []
| c :: rest => m (c :: rest) || searchM m rest

/-- Uppercased character list of a string: Python `query.upper()`. -/
def upperChars (s : String) : List Char := s.data.map Char.toUpper

/-- Lowercased character list of a string: Python `s.lower()`. -/
def lowerChars (s : String) : List Char := s.data.map Char.toLower

/-- Python `pat in s` substring test. -/
def containsStr (s : String) (pat : String) : Bool :=
  searchM (litM pat.data anyRest) s.data

/-- Substring test directly on character lists. -/
def containsChars (pat : List Char) (cs : List Char) : Bool :=
  searchM (litM pat anyRest) cs

/-! ## Deny-list patterns (`DatabaseConnector.DANGEROUS_PATTERNS`)

Each matcher is the model of one entry, applied by `_validate_query` to the
uppercased query via `re.search`. -/

/-- Deny pattern `--` (SQL comments). -/
def patComment : List Char → Bool := searchM (litM "--".data anyRest)

/-- Deny pattern `/\*.*?\*/` (multi-line comments). -/
def patMultiComment : List Char → Bool :=
  searchM (litM "/*".data (dotStarM (litM "*/".data anyRest)))

/-- Deny pattern `;.*?$` (multiple statements): a `;` whose tail reaches the
end anchor through non-newline characters, i.e. a `;` on the last line. -/
def patSemicolon : List Char → Bool :=
  searchM (litM ";".data (dotStarM endAnchorM))

/-- Deny pattern `UNION\s+ALL\s+SELECT` (UNION-based injection). -/
def patUnionAllSelect : List Char → Bool :=
  searchM (litM "UNION".data (wsPlusM (litM "ALL".data (wsPlusM (litM "SELECT".data anyRest)))))

/-- Deny pattern `OR\s+1\s*=\s*1` (OR-based injection). -/
def patOr1Eq1 : List Char → Bool :=
  searchM (litM "OR".data (wsPlusM (litM "1".data
    (wsStarM (litM "=".data (wsStarM (litM "1".data anyRest)))))))

/-- Deny pattern `DROP\s+TABLE` (table dropping). -/
def patDropTable : List Char → Bool :=
  searchM (litM "DROP".data (wsPlusM (litM "TABLE".data anyRest)))

/-- Deny pattern `DELETE\s+FROM` (mass deletion). -/
def patDeleteFrom : List Char → Bool :=
  searchM (litM "DELETE".data (wsPlusM (litM "FROM".data anyRest)))

/-- Deny pattern `UPDATE\s+.*SET` (mass update). -/
def patUpdateSet : List Char → Bool :=
  searchM (litM "UPDATE".data (wsPlusM (dotStarM (litM "SET".data anyRest))))

/-- Deny pattern `EXECUTE\s+IMMEDIATE` (dynamic SQL execution). -/
def patExecuteImmediate : List Char → Bool :=
  searchM (litM "EXECUTE".data (wsPlusM (litM "IMMEDIATE".data anyRest)))

/-- Deny pattern `EXEC\s+xp_` (extended stored procedures); matching is on the
uppercased query under IGNORECASE, hence the uppercase literal. -/
def patExecXp : List Char → Bool :=
  searchM (litM "EXEC".data (wsPlusM (litM "XP_".data anyRest)))

/-- Deny pattern `xp_cmdshell` (command shell execution), uppercased. -/
def patXpCmdshell : List Char → Bool := searchM (litM "XP_CMDSHELL".data anyRest)

/-- The `for pattern in DANGEROUS_PATTERNS` loop of `_validate_query`: the
first matching pattern (returned as its regex text), or `none`. -/
def dangerousHit (up : List Char) : Option String :=
  if patComment up then some "--"
  else if patMultiComment up then some "/\\*.*?\\*/"
  else if patSemicolon up then some ";.*?$"
  else if patUnionAllSelect up then some "UNION\\s+ALL\\s+SELECT"
  else if patOr1Eq1 up then some "OR\\s+1\\s*=\\s*1"
  else if patDropTable up then some "DROP\\s+TABLE"
  else if patDeleteFrom up then some "DELETE\\s+FROM"
  else if patUpdateSet up then some "UPDATE\\s+.*SET"
  else if patExecuteImmediate up then some "EXECUTE\\s+IMMEDIATE"
  else if patExecXp up then some "EXEC\\s+xp_"
  else if patXpCmdshell up then some "xp_cmdshell"
  else none

/-! ## Errors

The exception classes raised along the query pipeline
(`app/exceptions/database_exceptions.py` and the builtins used by the
source), collapsed into one sum so that `Except` results compose. -/

inductive PyError where
| valueError (msg : String)
| sqlInjection (msg : String)
| queryError (msg : String)
| configError (msg : String)
| authenticationError (msg : String)
| connectionError (msg : String)
| httpException (statusCode : Nat) (detail : String)
deriving DecidableEq, Repr

/-- Whether an `Except` outcome is a raised `SQLInjectionError`. -/
def isInjection {α : Type} : Except PyError α → Bool
| .error (.sqlInjection _) => true
| _ => false

/-! ## QueryValidator and the connector-level validator
(`app/helpers/db_connectors.py`)

`sqlparse` is an external library; its two outputs consumed by the source —
`stmt.get_type()` and the uppercased `token.value.upper()` list of keyword
tokens — are passed as explicit arguments `stmtType` and `tokens`. -/

/-- `ALLOWED_OPERATIONS` of `DatabaseConnector`. -/
def allowedOperations : List String :=
  ["SELECT", "WITH", "FROM", "WHERE", "GROUP BY", "HAVING",
   "ORDER BY", "LIMIT", "JOIN", "LEFT JOIN", "RIGHT JOIN",
   "INNER JOIN", "OUTER JOIN", "ON", "AND", "OR", "IN",
   "BETWEEN", "LIKE", "AS"]

/-- Number of occurrences of a character: Python `query.count(c)`. -/
def countChar (s : String) (c : Char) : Nat := s.data.count c

/-- `DatabaseConnector._validate_query`: deny-list scan over the uppercased
query, then the keyword allow-list, then the stacked-statement count, then
the comment-marker check; the first failure raises `SQLInjectionError`.
`tokens` is the uppercased keyword token list of the first parsed
statement; the function indexes `sqlparse.parse(query)[0]`, so it is only
reached for input sqlparse parses into at least one statement. -/
def validate_query (tokens : List String) (query : String) : Except PyError Unit :=
  match dangerousHit (upperChars query) with
  | some pat => .error (.sqlInjection ("Potential SQL injection detected: " ++ pat))
  | none =>
    match tokens.find? (fun t => !(allowedOperations.contains t)) with
    | some t => .error (.sqlInjection ("Unauthorized SQL operation detected: " ++ t))
    | none =>
      if countChar query ';' > 1 then
        .error (.sqlInjection "Multiple SQL statements are not allowed")
      else if containsStr query "--" || containsStr query "/*" then
        .error (.sqlInjection "SQL comments are not allowed")
      else .ok ()

/-- The characters removed by the sanitizers' `re.sub(r'[;\'\"\\]', '', _)`:
semicolon, single quote, double quote, backslash. -/
def dangerousConfigChar (c : Char) : Bool :=
  c = ';' || c = Char.ofNat 39 || c = Char.ofNat 34 || c = Char.ofNat 92

/-- Removal of the four dangerous characters from a string value. -/
def stripDangerousChars (s : String) : String :=
  String.mk (s.data.filter (fun c => !(dangerousConfigChar c)))

/-- Character-level body of the wildcard escape
`re.sub(r'[%_]', lambda m: '\\' + m.group(0), _)`: prefix every `%` and `_`
with a backslash. -/
def escWildcardChars : List Char → List Char
| [] => []
| c :: rest =>
    if c = '%' || c = '_' then Char.ofNat 92 :: c :: escWildcardChars rest
    else c :: escWildcardChars rest

/-- The wildcard escape on strings. -/
def escapeWildcards (s : String) : String := String.mk (escWildcardChars s.data)

/-- The characters whose removal the parameter sanitizer promises and that
the wildcard escape never reintroduces: semicolon and both quotes (the
backslash, also removed first, is reintroduced only as an escape prefix). -/
def quoteOrSemicolon (c : Char) : Bool :=
  c = ';' || c = Char.ofNat 39 || c = Char.ofNat 34

mutual

/-- Scanner for the LIKE-escape discipline: every `%` and `_` occurring in
the list is immediately preceded by a backslash (a backslash escapes the
character that follows it). -/
def wildcardsEscaped : List Char → Bool
| [] => true
| c :: rest =>
    if c = '%' || c = '_' then false
    else if c = Char.ofNat 92 then wildcardsEscapedTail rest
    else wildcardsEscaped rest

/-- State after an escaping backslash: the next character is escaped. -/
def wildcardsEscapedTail : List Char → Bool
| [] => true
| _ :: rest => wildcardsEscaped rest

end

/-- `QueryValidator._sanitize_parameter`: strings are stripped of the four
dangerous characters then wildcard-escaped; every other value is returned
unchanged. -/
def sanitize_parameter (v : PyVal) : PyVal :=
  match v with
  | .str s => .str (escapeWildcards (stripDangerousChars s))
  | w => w

/-- Query parameter set: Python passes a tuple or a dict. -/
inductive QueryParams where
| tuple (vs : PyList)
| dict (es : PyDict)
deriving DecidableEq, Repr

/-- Element-wise sanitization of a tuple of parameters. -/
def sanitizeParamList : PyList → PyList
| .nil => .nil
| .cons v tl => .cons (sanitize_parameter v) (sanitizeParamList tl)

/-- Value-wise sanitization of a dict of parameters (keys untouched). -/
def sanitizeParamDict : PyDict → PyDict
| .nil => .nil
| .cons k v tl => .cons k (sanitize_parameter v) (sanitizeParamDict tl)

/-- Python truthiness of the optional parameter set (`if params:`): `None`,
the empty tuple and the empty dict are falsy. -/
def paramsTruthy : Option QueryParams → Bool
| Option.none => false
| some (.tuple .nil) => false
| some (.dict .nil) => false
| some _ => true

/-- `QueryValidator.validate_and_sanitize_query`: reject when `sqlparse`
returns no statements (empty input), reject when the statement type is
neither `SELECT` nor `UNKNOWN`, sanitize a truthy parameter set value-wise
preserving its shape, and return the query string untouched.  `stmtType`
is `sqlparse.parse(query)[0].get_type()`. -/
def validate_and_sanitize_query (stmtType : String) (query : String)
    (params : Option QueryParams) : Except PyError (String × Option QueryParams) :=
  if query = "" then .error (.valueError "Empty or invalid SQL query")
  else if stmtType ≠ "SELECT" ∧ stmtType ≠ "UNKNOWN" then
    .error (.sqlInjection "Only SELECT queries are allowed")
  else
    let sanitizedParams : Option QueryParams :=
      if paramsTruthy params then
        match params with
        | some (.dict es) => some (.dict (sanitizeParamDict es))
        | some (.tuple vs) => some (.tuple (sanitizeParamList vs))
        | Option.none => Option.none
      else Option.none
    .ok (query, sanitizedParams)

/-- The two validation stages a query passes on the execution path
(`DatabaseService.process_query` calls `validate_and_sanitize_query`, then
`DatabaseConnector.execute_query` calls `_validate_query`), composed as one
pure validator; an accepted query is returned as the connector receives it. -/
def fullValidation (stmtType : String) (tokens : List String) (query : String) :
    Except PyError String :=
  match validate_and_sanitize_query stmtType query Option.none with
  | .error e => .error e
  | .ok (q, _) =>
    match validate_query tokens q with
    | .error e => .error e
    | .ok _ => .ok q

/-! ## Connectors (`app/helpers/db_connectors.py`) -/

/-- The supported engine tags, the keys of the `get_connector` factory table
and of `DatabaseService._validate_database_type`. -/
inductive Engine where
| mysql
| postgresql
| oracle
| mariadb
deriving DecidableEq, Repr

/-- The tag string of an engine. -/
def Engine.tag : Engine → String
| .mysql => "mysql"
| .postgresql => "postgresql"
| .oracle => "oracle"
| .mariadb => "mariadb"

/-- Observable resource events of one gateway operation. -/
inductive Event where
| connectorCreated
| connect
| execute
| disconnect
deriving DecidableEq, Repr

deriving instance DecidableEq for Except

/-- Result of a traced operation: the resource events it performed, in
order, and its outcome. -/
structure ExecResult where
events : List Event
outcome : Except PyError Unit
deriving DecidableEq, Repr

/-- `DatabaseConnector.execute_query`, inherited unchanged by the MySQL,
PostgreSQL, Oracle and MariaDB connector classes: when no connection exists
it first calls `self.connect()` — opening the physical connection — and only
afterwards runs `self._validate_query` on the query; validation failures
propagate as `SQLInjectionError`.  The `engine` argument records which
connector variant runs the inherited body. -/
def connectorExecuteQuery (engine : Engine) (alreadyConnected : Bool)
    (tokens : List String) (query : String) : ExecResult :=
  let connectEvents := if alreadyConnected then ([] : List Event) else [Event.connect]
  match validate_query tokens query with
  | .error e => { events := connectEvents, outcome := .error e }
  | .ok _ => { events := connectEvents ++ [Event.execute], outcome := .ok () }

/-! ## Error classification (`app/exceptions/database_exceptions.py`) -/

/-- `DatabaseErrorCategory`: the fixed enum of failure categories. -/
inductive DatabaseErrorCategory where
| CONNECTION_REFUSED
| AUTHENTICATION_FAILED
| DATABASE_NOT_FOUND
| INVALID_HOST
| INVALID_PORT
| MAX_CONNECTIONS
| TIMEOUT
| PERMISSION_DENIED
| UNKNOWN
deriving DecidableEq, Repr

/-- The `DatabaseError` dataclass: the only error shape crossing the
connector boundary. -/
structure DatabaseError where
category : DatabaseErrorCategory
message : String
error_code : String
details : Option String
deriving DecidableEq, Repr

/-- `PostgreSQLErrorHandler._init_error_patterns`, in insertion order:
vendor code, category, friendly message. -/
def postgresqlErrorPatterns : List (String × DatabaseErrorCategory × String) :=
  [("28000", .AUTHENTICATION_FAILED,
      "Authentication failed. Please check your username and password."),
   ("28P01", .AUTHENTICATION_FAILED,
      "Incorrect password for user. Please check your password."),
   ("3D000", .DATABASE_NOT_FOUND,
      "The specified database does not exist. Please check the database name."),
   ("08006", .CONNECTION_REFUSED,
      "Connection failed. The port number might be incorrect or PostgreSQL is not running."),
   ("57P03", .MAX_CONNECTIONS,
      "The database has reached its maximum allowed connections."),
   ("08001", .INVALID_HOST,
      "Could not connect to host. Please verify the hostname is correct."),
   ("42501", .PERMISSION_DENIED,
      "User lacks required permissions. Please check user privileges."),
   ("53300", .MAX_CONNECTIONS,
      "Too many connections. Please try again later."),
   ("08004", .PERMISSION_DENIED,
      "Server rejected the connection. Check host-based authentication configuration.")]

/-- `MySQLErrorHandler._init_error_patterns`, in insertion order. -/
def mysqlErrorPatterns : List (String × DatabaseErrorCategory × String) :=
  [("2005", .INVALID_HOST,
      "Could not connect to MySQL server. The host address appears to be incorrect."),
   ("2003", .CONNECTION_REFUSED,
      "Connection refused. The port number might be incorrect or MySQL is not running."),
   ("1045", .AUTHENTICATION_FAILED,
      "Access denied. The username or password is incorrect."),
   ("1044", .PERMISSION_DENIED,
      "Access denied to database. User lacks required permissions."),
   ("1049", .DATABASE_NOT_FOUND,
      "The specified database does not exist. Please check the database name."),
   ("1042", .INVALID_HOST,
      "Unable to connect to MySQL server through TCP/IP. Check hostname and network."),
   ("1251", .AUTHENTICATION_FAILED,
      "Client authentication method is not supported. Check authentication settings."),
   ("1040", .MAX_CONNECTIONS,
      "Too many connections. Maximum connection limit reached.")]

/-- `OracleErrorHandler._init_error_patterns`, in insertion order. -/
def oracleErrorPatterns : List (String × DatabaseErrorCategory × String) :=
  [("ORA-12545", .INVALID_HOST,
      "Unable to connect. The host address appears to be incorrect."),
   ("ORA-12541", .CONNECTION_REFUSED,
      "No listener. The port number might be incorrect or the listener is not running."),
   ("ORA-01017", .AUTHENTICATION_FAILED,
      "Invalid username or password. Please check your credentials."),
   ("ORA-12505", .DATABASE_NOT_FOUND,
      "Database (SID) does not exist. Please check the database name/SID."),
   ("ORA-01031", .PERMISSION_DENIED,
      "Insufficient privileges. User lacks required permissions."),
   ("ORA-12170", .TIMEOUT,
      "Connect timeout occurred. Check network and database availability."),
   ("ORA-12514", .DATABASE_NOT_FOUND,
      "Service name not found. Please verify the database service name."),
   ("ORA-12504", .DATABASE_NOT_FOUND,
      "TNS Listener was not given the SERVICE_NAME. Check database configuration."),
   ("ORA-12520", .MAX_CONNECTIONS,
      "Maximum number of connections exceeded. Try again later.")]

/-- The per-engine pattern table selected by `DatabaseErrorFactory`;
`MariaDBErrorHandler` subclasses `MySQLErrorHandler` without overrides, so
the MariaDB tag reuses the MySQL table. -/
def errorPatterns : Engine → List (String × DatabaseErrorCategory × String)
| .mysql => mysqlErrorPatterns
| .postgresql => postgresqlErrorPatterns
| .oracle => oracleErrorPatterns
| .mariadb => mysqlErrorPatterns

/-- One entry of the shared `_init_error_keywords` table: the keyword text
as written in the source, the compiled form of `re.search(keyword.lower(),
error_msg_lower)`, and the category and message it maps to. -/
structure KeywordEntry where
keyword : String
kwMatch : List Char → Bool
category : DatabaseErrorCategory
message : String

/-- Regex search for a keyword that is a plain literal. -/
def kwLit (s : String) : List Char → Bool := containsChars s.data

/-- Regex search for the `a .* b` keywords: literal, non-newline gap,
literal. -/
def kwGap (a b : String) : List Char → Bool :=
  searchM (litM a.data (dotStarM (litM b.data anyRest)))

/-- `ErrorHandler._init_error_keywords`, shared by every handler, in
insertion order. -/
def errorKeywords : List KeywordEntry :=
  [⟨"could not connect to server", kwLit "could not connect to server",
      .CONNECTION_REFUSED,
      "Unable to connect to the database server. Please verify the host and port."⟩,
   ⟨"network unreachable", kwLit "network unreachable",
      .INVALID_HOST,
      "Network is unreachable. The host address appears to be incorrect."⟩,
   ⟨"connection refused", kwLit "connection refused",
      .CONNECTION_REFUSED,
      "Connection refused. The port number might be incorrect or the server is not running."⟩,
   ⟨"invalid port", kwLit "invalid port",
      .INVALID_PORT,
      "The specified port number is invalid or incorrect."⟩,
   ⟨"password authentication failed", kwLit "password authentication failed",
      .AUTHENTICATION_FAILED,
      "The provided password is incorrect."⟩,
   ⟨"role .* does not exist", kwGap "role " " does not exist",
      .AUTHENTICATION_FAILED,
      "The specified username does not exist."⟩,
   ⟨"database .* does not exist", kwGap "database " " does not exist",
      .DATABASE_NOT_FOUND,
      "The specified database does not exist."⟩,
   ⟨"host .* is not allowed", kwGap "host " " is not allowed",
      .PERMISSION_DENIED,
      "Connection not allowed from this host. Check host-based authentication configuration."⟩,
   ⟨"timeout expired", kwLit "timeout expired",
      .TIMEOUT,
      "Connection timed out. The server might be down or there are network issues."⟩,
   ⟨"ssl required", kwLit "ssl required",
      .CONNECTION_REFUSED,
      "SSL connection is required. Please enable SSL or check SSL configuration."⟩]

/-- The keyword `error_code`:
`f"KEYWORD_{keyword.upper().replace(' ', '_')}"`. -/
def keywordCode (kw : String) : String :=
  "KEYWORD_" ++ String.mk (kw.data.map (fun c => if c = ' ' then '_' else c.toUpper))

/-- The generic message of the UNKNOWN default branch. -/
def unknownErrorMessage : String :=
  "Failed to connect to the database. Please verify all connection details."

/-- `ErrorHandler.get_error`: lowercase the message, try the engine's code
patterns in insertion order (substring containment of the lowercased code),
then the shared keyword table in order (regex search), else the UNKNOWN
default with the generic message. -/
def get_error (engine : Engine) (errorMsg : String) : DatabaseError :=
  let low := lowerChars errorMsg
  match (errorPatterns engine).find? (fun p => containsChars (lowerChars p.1) low) with
  | some p =>
    { category := p.2.1, message := p.2.2, error_code := p.1, details := some errorMsg }
  | none =>
    match errorKeywords.find? (fun k => k.kwMatch low) with
    | some k =>
      { category := k.category, message := k.message,
        error_code := keywordCode k.keyword, details := some errorMsg }
    | none =>
      { category := .UNKNOWN, message := unknownErrorMessage,
        error_code := "UNKNOWN", details := some errorMsg }

/-! ## Connection-configuration normalization (`normalize_config`,
`DatabaseConnector._sanitize_config`) -/

/-- An insertion-ordered Python dict with string keys: the shape of a
connection configuration inside the connector layer. -/
abbrev Config := List (String × PyVal)

/-- Dict lookup `cfg[k]` / `k in cfg`: the entry at the key, if any. -/
def cfgGet : Config → String → Option PyVal
| [], _ => Option.none
| p :: tl, k => if p.1 == k then some p.2 else cfgGet tl k

/-- Dict removal `cfg.pop(k, None)`: drop the entry at the key. -/
def cfgPop : Config → String → Config
| [], _ => []
| p :: tl, k => if p.1 == k then cfgPop tl k else p :: cfgPop tl k

/-- In-place overwrite of an existing key. -/
def cfgReplace : Config → String → PyVal → Config
| [], _, _ => []
| p :: tl, k, v => if p.1 == k then (k, v) :: cfgReplace tl k v else p :: cfgReplace tl k v

/-- Dict assignment `cfg[k] = v`: overwrite in place when the key exists,
append otherwise (insertion order). -/
def cfgSet (cfg : Config) (k : String) (v : PyVal) : Config :=
  if cfg.any (fun p => p.1 == k) then cfgReplace cfg k v
  else cfg ++ [(k, v)]

/-- Dict `cfg.setdefault(k, v)`. -/
def cfgSetDefault (cfg : Config) (k : String) (v : PyVal) : Config :=
  if cfg.any (fun p => p.1 == k) then cfg else cfg ++ [(k, v)]

/-- The value transform of the config sanitizers: strings are stripped of
the four dangerous characters, every other value is kept. -/
def stripVal : PyVal → PyVal
| .str s => .str (stripDangerousChars s)
| v => v

/-- The dangerous-character strip applied to every string value of a config
dict: the loop bodies of `normalize_config` and of
`DatabaseConnector._sanitize_config` are this same
`re.sub(r'[;\'\"\\]', '', value)` pass. -/
def stripStrValues : Config → Config
| [] => []
| p :: tl => (p.1, stripVal p.2) :: stripStrValues tl

/-- `DatabaseConnector._sanitize_config`, run by every connector's
constructor on the configuration it receives. -/
def sanitize_config (cfg : Config) : Config := stripStrValues cfg

/-- Python `s.lower()` as a string. -/
def lowerStr (s : String) : String := String.mk (s.data.map Char.toLower)

/-- Membership of a tag in the `get_connector` factory table (the same set
`DatabaseService._validate_database_type` allows). -/
def supportedEngineTag (s : String) : Bool :=
  ["mysql", "postgresql", "oracle", "mariadb"].contains (lowerStr s)

/-- `normalize_config` from `app/helpers/db_connectors.py` (the live,
uncommented version): strip dangerous characters from every string value,
then apply the engine-specific fixups — PostgreSQL renames `username` to
`user`, defaults `connect_timeout`/`client_encoding` and pops the SSL keys;
Oracle renames `database` to `service_name` and defaults encodings; MySQL
and MariaDB pop the connector-owned keys. -/
def normalize_config (dbType : String) (config : Config) : Config :=
  let normalized := stripStrValues config
  let low := lowerStr dbType
  if low = "postgresql" then
    let n1 :=
      match cfgGet normalized "username" with
      | some v => cfgSet (cfgPop normalized "username") "user" v
      | Option.none => normalized
    let n2 := cfgSetDefault n1 "connect_timeout" (.int 10)
    let n3 := cfgSetDefault n2 "client_encoding" (.str "utf8")
    cfgPop (cfgPop (cfgPop (cfgPop n3 "sslmode") "sslcert") "sslkey") "sslrootcert"
  else if low = "oracle" then
    let n1 :=
      match cfgGet normalized "service_name", cfgGet normalized "database" with
      | Option.none, some v => cfgSet (cfgPop normalized "database") "service_name" v
      | _, _ => normalized
    let n2 := cfgSetDefault n1 "encoding" (.str "UTF-8")
    let n3 := cfgSetDefault n2 "nencoding" (.str "UTF-8")
    cfgSetDefault n3 "ssl_server_dn_match" (.bool true)
  else if low = "mysql" || low = "mariadb" then
    cfgPop (cfgPop (cfgPop (cfgPop (cfgPop normalized
      "use_pure") "ssl_verify_cert") "ssl_verify_identity") "allow_local_infile") "sql_mode"
  else normalized

/-- `get_connector`: reject unsupported tags with ValueError; otherwise
normalize the configuration and construct the connector class, whose
`__init__` immediately applies `_sanitize_config` — a second strip of the
same four characters.  Returns the configuration the connector instance
will use to `connect()`. -/
def get_connector_config (dbType : String) (config : Config) : Except PyError Config :=
  if supportedEngineTag dbType then
    .ok (sanitize_config (normalize_config dbType config))
  else
    .error (.valueError ("Unsupported database type: " ++ dbType))

/-! ## Database Gateway (`app/services/database/database_service.py` and the
`/ask` route of `app/controller/database.py`) -/

/-- A single-quote character as a string, for building the source's quoted
status messages. -/
def sq : String := String.singleton (Char.ofNat 39)

/-- Persisted Database Definition row (`app/models/databases.py`), the
fields the claims speak about. -/
structure DatabaseRow where
user_id : Nat
name : String
database_type : String
configuration : FernetToken
is_active : Bool
deriving DecidableEq, Repr

/-- Character class of `DatabaseService.NAME_PATTERN`. -/
def isNameChar (c : Char) : Bool :=
  c.isAlpha || c.isDigit || c = '_' || c = '-'

/-- `re.match(r'^[a-zA-Z0-9_-]+$', name)`: a nonempty run of allowed
characters spanning the whole name, `$` tolerating one trailing newline. -/
def validDbName (s : String) : Bool :=
  let core := if s.data.getLast? = some '\n' then s.data.dropLast else s.data
  !core.isEmpty && core.all isNameChar

/-- Result of a successful `create_database`: the updated store, the
persisted row and the status message returned to the controller. -/
structure CreateResult where
store : List DatabaseRow
row : DatabaseRow
message : String
deriving DecidableEq, Repr

/-- `DatabaseService.create_database`.  The live connectivity test
(`test_connection`, a `SELECT 1` probe over the network) is abstracted by
`testOutcome`: `none` when it succeeded, `some msg` when it raised one of
the three classified connection errors with message `msg` — exactly the
exceptions the source catches.  The row is persisted (appended to `store`)
whatever the outcome, carrying the encrypted configuration and
`is_active = test outcome`; name-uniqueness violations surface as
IntegrityError and are re-raised as ValueError, which the outer handler
wraps into `DatabaseConfigError`.  The texts of the rejection branches not
exercised by any claim (unsupported type, unserializable configuration)
stand in for the source's interpolated messages. -/
def create_database (store : List DatabaseRow) (userId : Nat) (name dbType : String)
    (config : PyVal) (testOutcome : Option String) : Except PyError CreateResult :=
  if !validDbName name then
    .error (.configError
      "Failed to create database: Invalid database name. Use only letters, numbers, underscores, and hyphens.")
  else if !supportedEngineTag dbType then
    .error (.configError "Failed to create database: Unsupported database type.")
  else
    match encrypt_config config with
    | Option.none =>
      .error (.configError "Failed to create database: configuration is not JSON-serializable")
    | some tok =>
      if store.any (fun r => r.user_id == userId && r.name == name) then
        .error (.configError
          ("Failed to create database: Database name " ++ sq ++ name ++ sq ++ " already exists"))
      else
        let row : DatabaseRow :=
          { user_id := userId, name := name, database_type := dbType,
            configuration := tok, is_active := testOutcome.isNone }
        let message :=
          "Database " ++ sq ++ name ++ sq ++ " created successfully" ++
            (match testOutcome with
             | Option.none => ""
             | some e => " but connection test failed: " ++ e)
        .ok { store := store ++ [row], row := row, message := message }

/-- Result of the `/ask` route skeleton: resource events and outcome. -/
structure RouteResult where
events : List Event
outcome : Except PyError Unit
deriving DecidableEq, Repr

/-- The HTTPException detail the `/ask` route raises for an inactive
definition. -/
def inactiveDetail (name : String) : String :=
  "Database " ++ sq ++ name ++ sq ++
    " is currently inactive. Please check the connection settings and reactivate the database."

/-- The `/ask` route `query_database` (`app/controller/database.py`): after
loading the Database Definition it checks `is_active` and raises
HTTPException 400 immediately when the definition is inactive — before
schema extraction, SQL generation and query execution, so before any
connector object exists.  The active path begins with
`extract_database_schema`, which builds a connector and connects
(`extract_schema` → `get_connector` → `connect`); everything after that
depends on external I/O (the live engine and the LLM SQL generator) and is
abstracted by `activeOutcome`. -/
def query_database (row : DatabaseRow) (activeOutcome : Except PyError Unit) : RouteResult :=
  if row.is_active = false then
    { events := [], outcome := .error (.httpException 400 (inactiveDetail row.name)) }
  else
    { events := [Event.connectorCreated, Event.connect], outcome := activeOutcome }

/-! # Theorems -/

/-! ## JSON round trip helpers -/

mutual

/-- On JSON-faithful values the serialization round trip is the identity. -/
theorem jsonNormalize_self : (v : PyVal) → jsonFaithful v = true → jsonNormalize v = some v
| .str _, _ => rfl
| .int _, _ => rfl
| .bool _, _ => rfl
| .pyNone, _ => rfl
| .list xs, h => by
    have hx : jsonFaithfulList xs = true := by simpa [jsonFaithful] using h
    simp [jsonNormalize, jsonNormalizeList_self xs hx]
| .dict es, h => by
    have hx : jsonFaithfulDict es = true := by simpa [jsonFaithful] using h
    simp [jsonNormalize, jsonNormalizeDict_self es hx]

/-- List version of `jsonNormalize_self`. -/
theorem jsonNormalizeList_self :
    (xs : PyList) → jsonFaithfulList xs = true → jsonNormalizeList xs = some xs
| .nil, _ => rfl
| .cons v tl, h => by
    have h' : jsonFaithful v = true ∧ jsonFaithfulList tl = true := by
      simpa [jsonFaithfulList, Bool.and_eq_true] using h
    simp [jsonNormalizeList, jsonNormalize_self v h'.1, jsonNormalizeList_self tl h'.2]

/-- Dict version of `jsonNormalize_self`: string keys survive
stringification unchanged. -/
theorem jsonNormalizeDict_self :
    (es : PyDict) → jsonFaithfulDict es = true → jsonNormalizeDict es = some es
| .nil, _ => rfl
| .cons k v tl, h => by
    cases k with
    | str s =>
      have h' : jsonFaithful v = true ∧ jsonFaithfulDict tl = true := by
        simpa [jsonFaithfulDict, Bool.and_eq_true] using h
      simp [jsonNormalizeDict, pyKeyToString, jsonNormalize_self v h'.1,
        jsonNormalizeDict_self tl h'.2]
    | int n => simp [jsonFaithfulDict] at h
    | bool b => simp [jsonFaithfulDict] at h
    | pyNone => simp [jsonFaithfulDict] at h
    | list xs => simp [jsonFaithfulDict] at h
    | dict fs => simp [jsonFaithfulDict] at h

end

/-- C3 counterexample: the config dict with the single entry `1 ↦ "a"` (an
integer key) does not round trip — `json.dumps` stringifies the key, so
decrypting the encryption returns the dict `"1" ↦ "a"`, a different value.
-/
theorem C3_counterexample_int_key :
    (encrypt_config (.dict (.cons (.int 1) (.str "a") .nil))).map decrypt_config
      ≠ some (PyVal.dict (.cons (.int 1) (.str "a") .nil)) := by
  decide

/-- C3 (amended): for every configuration dictionary whose keys — at every
nesting level — are strings, decryption after encryption under the
process-wide key is an exact round trip. -/
theorem C3_config_roundtrip (es : PyDict) (h : jsonFaithfulDict es = true) :
    (encrypt_config (.dict es)).map decrypt_config = some (PyVal.dict es) := by
  have hn : jsonNormalize (.dict es) = some (.dict es) :=
    jsonNormalize_self (.dict es) (by simpa [jsonFaithful] using h)
  simp [encrypt_config, hn, decrypt_config]

/-- Witness for `C3_config_roundtrip` at a concrete configuration record. -/
theorem C3_config_roundtrip_witness :
    (encrypt_config (.dict (.cons (.str "host") (.str "db.internal")
        (.cons (.str "port") (.int 5432)
          (.cons (.str "password") (.str "hunter2") .nil))))).map decrypt_config
      = some (PyVal.dict (.cons (.str "host") (.str "db.internal")
          (.cons (.str "port") (.int 5432)
            (.cons (.str "password") (.str "hunter2") .nil)))) :=
  C3_config_roundtrip _ (by decide)

/-! ## Validator helpers -/

/-- A deny-pattern hit makes `_validate_query` raise the corresponding
SQLInjectionError for any token list. -/
theorem validate_query_error_of_dangerous (tokens : List String) (query : String)
    (pat : String) (hd : dangerousHit (upperChars query) = some pat) :
    validate_query tokens query =
      .error (.sqlInjection ("Potential SQL injection detected: " ++ pat)) := by
  unfold validate_query
  rw [hd]

/-- More than one semicolon always yields an SQLInjectionError from
`_validate_query`: via a deny pattern, an unauthorized token, or the
stacked-statement count, every one of which raises that exception. -/
theorem validate_query_injection_of_stacked (tokens : List String) (query : String)
    (h : countChar query ';' > 1) :
    ∃ msg, validate_query tokens query = .error (.sqlInjection msg) := by
  unfold validate_query
  cases hd : dangerousHit (upperChars query) with
  | some pat => exact ⟨_, rfl⟩
  | none =>
    cases hf : tokens.find? (fun t => !(allowedOperations.contains t)) with
    | some t => exact ⟨_, rfl⟩
    | none => exact ⟨_, by rw [if_pos h]⟩

/-- `validate_and_sanitize_query` accepts any nonempty query typed SELECT
or UNKNOWN and, with no parameters, returns the query string untouched. -/
theorem vas_accepts (stmtType query : String) (hq : query ≠ "")
    (hs : stmtType = "SELECT" ∨ stmtType = "UNKNOWN") :
    validate_and_sanitize_query stmtType query Option.none = .ok (query, Option.none) := by
  unfold validate_and_sanitize_query
  rw [if_neg hq, if_neg (by rcases hs with h | h <;> simp [h])]
  rfl

/-- `validate_and_sanitize_query` rejects any nonempty query whose type is
neither SELECT nor UNKNOWN. -/
theorem vas_rejects (stmtType query : String) (params : Option QueryParams)
    (hq : query ≠ "") (h1 : stmtType ≠ "SELECT") (h2 : stmtType ≠ "UNKNOWN") :
    validate_and_sanitize_query stmtType query params =
      .error (.sqlInjection "Only SELECT queries are allowed") := by
  unfold validate_and_sanitize_query
  rw [if_neg hq, if_pos ⟨h1, h2⟩]

/-- Once the entry validator has passed a query through unchanged, the
composed validation reduces to the connector-level validator. -/
theorem fullValidation_ok_step (stmtType : String) (tokens : List String) (query : String)
    (h1 : validate_and_sanitize_query stmtType query Option.none = .ok (query, Option.none)) :
    fullValidation stmtType tokens query =
      match validate_query tokens query with
      | .error e => .error e
      | .ok _ => .ok query := by
  unfold fullValidation
  rw [h1]

/-- A hit of the OR 1=1 deny pattern guarantees some deny-list entry fires
(an earlier entry may fire first). -/
theorem dangerousHit_isSome_of_or1 (up : List Char) (h : patOr1Eq1 up = true) :
    ∃ pat, dangerousHit up = some pat := by
  unfold dangerousHit
  split_ifs <;> simp_all

/-! ## C1: stacked queries -/

/-- C1 counterexample: for the MySQL engine tag and the scenario's stacked
query, the connector-level validation does reject with SQLInjectionError,
but the event trace shows the physical connection was opened first —
`execute_query` calls `connect()` before `_validate_query` — so the "no
physical connection is opened for the rejected query" half of the claim is
false.  (SELECT and FROM are the keyword tokens sqlparse yields for the
first parsed statement.) -/
theorem C1_counterexample_connect_before_reject :
    (connectorExecuteQuery .mysql false ["SELECT", "FROM"]
        "SELECT * FROM users; DROP TABLE users;").events = [Event.connect]
    ∧ isInjection (connectorExecuteQuery .mysql false ["SELECT", "FROM"]
        "SELECT * FROM users; DROP TABLE users;").outcome = true := by
  decide

/-- C1 (amended): for every supported engine tag and every query containing
more than one `;`, the pipeline still rejects with SQLInjectionError — the
pre-connector validator `validate_and_sanitize_query` passes the string
through whenever sqlparse types it SELECT, and the connector's
`_validate_query` then rejects — but the rejection happens only after
`execute_query` has opened the physical connection: the connector trace is
exactly `[connect]`. -/
theorem C1_stacked_rejected_after_connect (engine : Engine) (tokens : List String)
    (query : String) (h : countChar query ';' > 1) :
    validate_and_sanitize_query "SELECT" query Option.none = .ok (query, Option.none)
    ∧ isInjection (connectorExecuteQuery engine false tokens query).outcome = true
    ∧ (connectorExecuteQuery engine false tokens query).events = [Event.connect] := by
  have hq : query ≠ "" := by
    intro he
    subst he
    exact absurd h (by decide)
  obtain ⟨msg, hv⟩ := validate_query_injection_of_stacked tokens query h
  refine ⟨vas_accepts "SELECT" query hq (Or.inl rfl), ?_, ?_⟩
  · unfold connectorExecuteQuery
    rw [hv]
    rfl
  · unfold connectorExecuteQuery
    rw [hv]
    rfl

/-- Witness for `C1_stacked_rejected_after_connect` on a concrete stacked
query against the PostgreSQL connector. -/
theorem C1_stacked_rejected_after_connect_witness :
    countChar "SELECT a FROM t; SELECT b FROM t;" ';' > 1
    ∧ (validate_and_sanitize_query "SELECT" "SELECT a FROM t; SELECT b FROM t;" Option.none
          = .ok ("SELECT a FROM t; SELECT b FROM t;", Option.none)
       ∧ isInjection (connectorExecuteQuery .postgresql false ["SELECT", "FROM"]
            "SELECT a FROM t; SELECT b FROM t;").outcome = true
       ∧ (connectorExecuteQuery .postgresql false ["SELECT", "FROM"]
            "SELECT a FROM t; SELECT b FROM t;").events = [Event.connect]) :=
  ⟨by decide, C1_stacked_rejected_after_connect .postgresql ["SELECT", "FROM"] _ (by decide)⟩

/-! ## C2: statement-type gate -/

/-- C2 counterexample: sqlparse types `GRANT ALL ON accounts TO intruder`
as UNKNOWN (GRANT is none of the DML/DDL types it recognizes), and
`validate_and_sanitize_query` accepts every UNKNOWN-typed statement — so a
statement whose effective type is not SELECT is accepted. -/
theorem C2_counterexample_unknown_type_accepted :
    validate_and_sanitize_query "UNKNOWN" "GRANT ALL ON accounts TO intruder" Option.none
      = .ok ("GRANT ALL ON accounts TO intruder", Option.none)
    ∧ "UNKNOWN" ≠ "SELECT" := by
  decide

/-- C2 (amended): on nonempty input `validate_and_sanitize_query` rejects
exactly the statements whose sqlparse type is neither SELECT nor UNKNOWN;
UNKNOWN-typed statements — among them WITH…SELECT common-table-expressions,
but also statements sqlparse cannot classify at all — are accepted. -/
theorem C2_type_gate (stmtType query : String) (params : Option QueryParams)
    (hq : query ≠ "") :
    (∃ e, validate_and_sanitize_query stmtType query params = .error e)
      ↔ (stmtType ≠ "SELECT" ∧ stmtType ≠ "UNKNOWN") := by
  unfold validate_and_sanitize_query
  rw [if_neg hq]
  by_cases hs : stmtType ≠ "SELECT" ∧ stmtType ≠ "UNKNOWN"
  · rw [if_pos hs]
    exact iff_of_true ⟨_, rfl⟩ hs
  · rw [if_neg hs]
    exact iff_of_false (by simp) hs

/-- Witness for `C2_type_gate`: an INSERT statement is rejected. -/
theorem C2_type_gate_witness :
    ("INSERT INTO t (a) VALUES (1)" ≠ "")
    ∧ ((∃ e, validate_and_sanitize_query "INSERT" "INSERT INTO t (a) VALUES (1)"
          Option.none = .error e)
        ↔ ("INSERT" ≠ "SELECT" ∧ "INSERT" ≠ "UNKNOWN")) :=
  ⟨by decide, C2_type_gate "INSERT" "INSERT INTO t (a) VALUES (1)" Option.none (by decide)⟩

/-! ## C6: the OR 1=1 idiom -/

/-- C6: every query containing the always-true predicate idiom `OR 1=1` —
in any casing, with one-or-more whitespace characters after OR and any
spacing around `=`, exactly the shape of the deny pattern `OR\s+1\s*=\s*1`
scanned case-insensitively — is rejected with SQLInjectionError by the
validation stages, whatever sqlparse reports for the statement. -/
theorem C6_or1eq1_rejected (stmtType : String) (tokens : List String) (query : String)
    (h : patOr1Eq1 (upperChars query) = true) :
    isInjection (fullValidation stmtType tokens query) = true := by
  have hq : query ≠ "" := by
    intro he
    subst he
    exact absurd h (by decide)
  obtain ⟨pat, hpat⟩ := dangerousHit_isSome_of_or1 _ h
  have hv := validate_query_error_of_dangerous tokens query pat hpat
  by_cases hs : stmtType ≠ "SELECT" ∧ stmtType ≠ "UNKNOWN"
  · unfold fullValidation
    rw [vas_rejects stmtType query Option.none hq hs.1 hs.2]
    rfl
  · have hs' : stmtType = "SELECT" ∨ stmtType = "UNKNOWN" := by
      rcases not_and_or.mp hs with h' | h'
      · exact Or.inl (not_not.mp h')
      · exact Or.inr (not_not.mp h')
    rw [fullValidation_ok_step stmtType tokens query (vas_accepts stmtType query hq hs'), hv]
    rfl

/-- Witness for `C6_or1eq1_rejected`: a mixed-case, oddly spaced OR 1=1. -/
theorem C6_or1eq1_rejected_witness :
    patOr1Eq1 (upperChars "select * from t where a = 1 oR  1=1") = true
    ∧ isInjection (fullValidation "SELECT" ["SELECT", "FROM"]
        "select * from t where a = 1 oR  1=1") = true :=
  ⟨by decide, C6_or1eq1_rejected "SELECT" ["SELECT", "FROM"] _ (by decide)⟩

/-! ## C7: acceptance of clean SELECT statements -/

/-- C7 counterexample: `SELECT * FROM t WHERE a = 1 OR 1 = 1` is a single
well-formed SELECT statement — sqlparse type SELECT, top-level keyword
tokens SELECT and FROM (the WHERE clause is a group, not a keyword token),
all allow-listed — contains no comment markers and no semicolon, yet
validation rejects it: the deny pattern `OR\s+1\s*=\s*1` fires even on
allow-listed grammar.  The claim's acceptance guarantee is therefore false
as stated. -/
theorem C7_counterexample_allowlisted_rejected :
    (∀ t ∈ (["SELECT", "FROM"] : List String),
        allowedOperations.contains t = true)
    ∧ countChar "SELECT * FROM t WHERE a = 1 OR 1 = 1" ';' = 0
    ∧ containsStr "SELECT * FROM t WHERE a = 1 OR 1 = 1" "--" = false
    ∧ containsStr "SELECT * FROM t WHERE a = 1 OR 1 = 1" "/*" = false
    ∧ isInjection (fullValidation "SELECT" ["SELECT", "FROM"]
        "SELECT * FROM t WHERE a = 1 OR 1 = 1") = true := by
  decide

/-- C7 (amended): a nonempty single SELECT statement (sqlparse type SELECT,
at most one semicolon) whose keyword tokens are all allow-listed, which
contains no comment markers, and which additionally matches none of the
deny-list patterns, is accepted by both validation stages and returned
character-for-character unmodified. -/
theorem C7_clean_select_accepted (tokens : List String) (query : String)
    (hq : query ≠ "")
    (hdeny : dangerousHit (upperChars query) = none)
    (hallow : ∀ t ∈ tokens, allowedOperations.contains t = true)
    (hsemi : countChar query ';' ≤ 1)
    (hc1 : containsStr query "--" = false)
    (hc2 : containsStr query "/*" = false) :
    fullValidation "SELECT" tokens query = .ok query := by
  have hv : validate_query tokens query = .ok () := by
    unfold validate_query
    rw [hdeny]
    have hf : tokens.find? (fun t => !(allowedOperations.contains t)) = none := by
      rw [List.find?_eq_none]
      intro t ht
      simpa using hallow t ht
    rw [hf, if_neg (by omega), if_neg (by simp [hc1, hc2])]
  rw [fullValidation_ok_step "SELECT" tokens query (vas_accepts "SELECT" query hq (Or.inl rfl)), hv]

/-- Witness for `C7_clean_select_accepted` on a realistic SELECT, with the
top-level keyword tokens sqlparse yields for it. -/
theorem C7_clean_select_accepted_witness :
    fullValidation "SELECT" ["SELECT", "FROM", "ORDER BY"]
        "SELECT name FROM users WHERE id IN (1, 2) ORDER BY name"
      = .ok "SELECT name FROM users WHERE id IN (1, 2) ORDER BY name" :=
  C7_clean_select_accepted ["SELECT", "FROM", "ORDER BY"]
    "SELECT name FROM users WHERE id IN (1, 2) ORDER BY name"
    (by decide) (by decide) (by decide) (by decide) (by decide) (by decide)

/-! ## C4: create persists regardless of test outcome -/

/-- C4: for every valid name, supported engine tag, serializable
configuration and conflict-free store, `create_database` persists the row
whatever the connectivity test returned: the stored configuration field is
the encryption token (the plaintext value is never stored — the row's
configuration has token type, and equals `encrypt_config config`),
`is_active` equals the test outcome, and the status message reports the
success or carries the specific connectivity-failure text. -/
theorem C4_create_persists (store : List DatabaseRow) (userId : Nat)
    (name dbType : String) (config : PyVal) (tok : FernetToken)
    (testOutcome : Option String)
    (hname : validDbName name = true)
    (htype : supportedEngineTag dbType = true)
    (henc : encrypt_config config = some tok)
    (hdup : store.any (fun r => r.user_id == userId && r.name == name) = false) :
    create_database store userId name dbType config testOutcome =
      .ok { store := store ++ [{ user_id := userId, name := name, database_type := dbType,
                                 configuration := tok, is_active := testOutcome.isNone }],
            row := { user_id := userId, name := name, database_type := dbType,
                     configuration := tok, is_active := testOutcome.isNone },
            message := "Database " ++ sq ++ name ++ sq ++ " created successfully" ++
              (match testOutcome with
               | Option.none => ""
               | some e => " but connection test failed: " ++ e) } := by
  simp [create_database, hname, htype, henc, hdup]

/-- Witness for `C4_create_persists`: a failing connectivity test still
persists the row, inactive, with the encrypted configuration and a message
carrying the failure text. -/
theorem C4_create_persists_witness :
    create_database [] 1 "prod" "mysql"
        (.dict (.cons (.str "password") (.str "pw") .nil))
        (some "Access denied. The username or password is incorrect.") =
      .ok { store := [{ user_id := 1, name := "prod", database_type := "mysql",
                        configuration := ⟨.dict (.cons (.str "password") (.str "pw") .nil)⟩,
                        is_active := false }],
            row := { user_id := 1, name := "prod", database_type := "mysql",
                     configuration := ⟨.dict (.cons (.str "password") (.str "pw") .nil)⟩,
                     is_active := false },
            message := "Database " ++ sq ++ "prod" ++ sq ++ " created successfully" ++
              " but connection test failed: Access denied. The username or password is incorrect." } :=
  C4_create_persists [] 1 "prod" "mysql"
    (.dict (.cons (.str "password") (.str "pw") .nil))
    ⟨.dict (.cons (.str "password") (.str "pw") .nil)⟩
    (some "Access denied. The username or password is incorrect.")
    (by decide) (by decide) (by decide) (by decide)

/-! ## C5: inactive definitions -/

/-- C5: a query operation against a Database Definition whose active flag
is false is rejected immediately by the `/ask` route with HTTP 400 and the
"currently inactive" detail, and its event trace is empty — no connector is
instantiated and no connection opened — whatever the downstream pipeline
would have produced. -/
theorem C5_inactive_rejected (row : DatabaseRow) (activeOutcome : Except PyError Unit)
    (h : row.is_active = false) :
    (query_database row activeOutcome).events = []
    ∧ (query_database row activeOutcome).outcome
        = .error (.httpException 400 (inactiveDetail row.name)) := by
  unfold query_database
  rw [h]
  exact ⟨rfl, rfl⟩

/-- Witness for `C5_inactive_rejected` on a concrete inactive definition. -/
theorem C5_inactive_rejected_witness :
    (query_database
        { user_id := 1
          name := "prod"
          database_type := "postgresql"
          configuration := ⟨.dict .nil⟩
          is_active := false } (.ok ())).events = []
    ∧ (query_database
        { user_id := 1
          name := "prod"
          database_type := "postgresql"
          configuration := ⟨.dict .nil⟩
          is_active := false } (.ok ())).outcome
        = .error (.httpException 400 (inactiveDetail "prod")) :=
  C5_inactive_rejected
    { user_id := 1
      name := "prod"
      database_type := "postgresql"
      configuration := ⟨.dict .nil⟩
      is_active := false } (.ok ()) rfl

/-! ## C9: parameter sanitization -/

/-- Every character surviving the dangerous-character strip is
non-dangerous. -/
theorem stripDangerousChars_mem (s : String) :
    ∀ c ∈ (stripDangerousChars s).data, dangerousConfigChar c = false := by
  intro c hc
  have hc' : c ∈ s.data.filter (fun c => !(dangerousConfigChar c)) := hc
  simpa using (List.mem_filter.mp hc').2

/-- The wildcard escape introduces no quote and no semicolon. -/
theorem escWildcardChars_no_quotes (cs : List Char)
    (h : ∀ c ∈ cs, dangerousConfigChar c = false) :
    ∀ c ∈ escWildcardChars cs, quoteOrSemicolon c = false := by
  induction cs with
  | nil =>
    intro c hc
    simp [escWildcardChars] at hc
  | cons a rest ih =>
    intro c hc
    have ha : dangerousConfigChar a = false := h a (List.mem_cons_self a rest)
    have ihr := ih (fun d hd => h d (List.mem_cons_of_mem a hd))
    simp only [dangerousConfigChar, Bool.or_eq_false_iff, decide_eq_false_iff_not] at ha
    by_cases hw : (a = '%' || a = '_') = true
    · rw [escWildcardChars, if_pos hw] at hc
      rcases List.mem_cons.mp hc with hceq | hc2
      · subst hceq
        decide
      · rcases List.mem_cons.mp hc2 with hceq | hc3
        · subst hceq
          have hw2 : c = '%' ∨ c = '_' := by simpa using hw
          rcases hw2 with hac | hac
          · subst hac
            decide
          · subst hac
            decide
        · exact ihr c hc3
    · rw [escWildcardChars, if_neg hw] at hc
      rcases List.mem_cons.mp hc with hceq | hc2
      · subst hceq
        simp [quoteOrSemicolon, ha.1.1.1, ha.1.1.2, ha.1.2]
      · exact ihr c hc2

/-- After the strip (so with no pre-existing backslash), the escape leaves
every `%` and `_` immediately preceded by a backslash. -/
theorem escWildcardChars_escaped (cs : List Char)
    (h : ∀ c ∈ cs, dangerousConfigChar c = false) :
    wildcardsEscaped (escWildcardChars cs) = true := by
  induction cs with
  | nil => rfl
  | cons a rest ih =>
    have ha : dangerousConfigChar a = false := h a (List.mem_cons_self a rest)
    have ihr := ih (fun d hd => h d (List.mem_cons_of_mem a hd))
    simp only [dangerousConfigChar, Bool.or_eq_false_iff, decide_eq_false_iff_not] at ha
    by_cases hw : (a = '%' || a = '_') = true
    · rw [escWildcardChars, if_pos hw]
      rw [wildcardsEscaped, if_neg (by decide), if_pos (by decide), wildcardsEscapedTail]
      exact ihr
    · rw [escWildcardChars, if_neg hw]
      rw [wildcardsEscaped, if_neg hw, if_neg (by simpa using ha.2)]
      exact ihr

/-- C9 counterexample: the empty tuple is a parameter set, but Python's
`if params:` treats it as falsy, so `validate_and_sanitize_query` returns
None in its place: the tuple shape of the parameter set is not preserved.
-/
theorem C9_counterexample_empty_tuple :
    validate_and_sanitize_query "SELECT" "SELECT 1" (some (QueryParams.tuple .nil))
      = .ok ("SELECT 1", Option.none)
    ∧ (Option.none : Option QueryParams) ≠ some (QueryParams.tuple .nil) := by
  decide

/-- C9 (amended): for every truthy (non-empty) parameter set, sanitization
preserves the shape — tuples map element-wise in order, dicts keep their
keys and map value-wise — where every string value is stripped of
semicolon, quote, double-quote and backslash characters and has each
remaining `%`/`_` wildcard prefixed with a backslash (the sanitized string
contains no quote or semicolon, and every wildcard in it is escaped), and
every non-string value passes through unchanged; an empty tuple or mapping,
being Python-falsy, is replaced by None instead. -/
theorem C9_parameter_sanitization (stmtType query : String) (params : QueryParams)
    (hq : query ≠ "") (hs : stmtType = "SELECT" ∨ stmtType = "UNKNOWN")
    (ht : paramsTruthy (some params) = true) :
    validate_and_sanitize_query stmtType query (some params) =
      .ok (query, some (match params with
        | .tuple vs => QueryParams.tuple (sanitizeParamList vs)
        | .dict es => QueryParams.dict (sanitizeParamDict es)))
    ∧ (∀ s, ∃ u, sanitize_parameter (.str s) = .str u
        ∧ (∀ c ∈ u.data, quoteOrSemicolon c = false)
        ∧ wildcardsEscaped u.data = true)
    ∧ (∀ v : PyVal, (∀ s, v ≠ .str s) → sanitize_parameter v = v) := by
  refine ⟨?_, ?_, ?_⟩
  · unfold validate_and_sanitize_query
    rw [if_neg hq, if_neg (by rcases hs with h | h <;> simp [h])]
    cases params with
    | tuple vs => simp [ht]
    | dict es => simp [ht]
  · intro s
    refine ⟨escapeWildcards (stripDangerousChars s), rfl, ?_, ?_⟩
    · exact escWildcardChars_no_quotes _ (stripDangerousChars_mem s)
    · exact escWildcardChars_escaped _ (stripDangerousChars_mem s)
  · intro v hv
    cases v with
    | str s => exact absurd rfl (hv s)
    | int n => rfl
    | bool b => rfl
    | pyNone => rfl
    | list xs => rfl
    | dict es => rfl

/-- Witness for `C9_parameter_sanitization` on a tuple holding a dangerous
string and an integer. -/
theorem C9_parameter_sanitization_witness :
    validate_and_sanitize_query "SELECT" "SELECT a FROM t WHERE a LIKE ?"
        (some (QueryParams.tuple (.cons (.str "a") (.cons (.int 7) .nil))))
      = .ok ("SELECT a FROM t WHERE a LIKE ?",
          some (QueryParams.tuple (sanitizeParamList (.cons (.str "a") (.cons (.int 7) .nil))))) :=
  (C9_parameter_sanitization "SELECT" "SELECT a FROM t WHERE a LIKE ?"
    (QueryParams.tuple (.cons (.str "a") (.cons (.int 7) .nil)))
    (by decide) (Or.inl rfl) (by decide)).1

/-! ## C8: error classification -/

/-- C8: for every engine handler and every input message, classification
follows the lookup order — any exact vendor-code hit (substring of the
lowercased message) forces a record from the engine's code table; with no
code hit, any keyword hit forces a record from the shared fallback table;
with neither, the result is category UNKNOWN with the generic non-leaking
message — and in particular any message containing the vendor code 28P01
is classified AUTHENTICATION_FAILED by the PostgreSQL handler.  Every
branch returns a `DatabaseError` record, whose category field inhabits the
fixed enum by construction. -/
theorem C8_classifier_lookup_order (engine : Engine) (msg : String) :
    ((∃ p ∈ errorPatterns engine, containsChars (lowerChars p.1) (lowerChars msg) = true) →
      ∃ p ∈ errorPatterns engine, containsChars (lowerChars p.1) (lowerChars msg) = true ∧
        get_error engine msg =
          { category := p.2.1, message := p.2.2, error_code := p.1, details := some msg })
    ∧ ((∀ p ∈ errorPatterns engine, containsChars (lowerChars p.1) (lowerChars msg) = false) →
       (∃ k ∈ errorKeywords, k.kwMatch (lowerChars msg) = true) →
        ∃ k ∈ errorKeywords, k.kwMatch (lowerChars msg) = true ∧
          get_error engine msg =
            { category := k.category, message := k.message,
              error_code := keywordCode k.keyword, details := some msg })
    ∧ ((∀ p ∈ errorPatterns engine, containsChars (lowerChars p.1) (lowerChars msg) = false) →
       (∀ k ∈ errorKeywords, k.kwMatch (lowerChars msg) = false) →
        get_error engine msg =
          { category := .UNKNOWN, message := unknownErrorMessage,
            error_code := "UNKNOWN", details := some msg })
    ∧ (containsChars (lowerChars "28P01") (lowerChars msg) = true →
        (get_error .postgresql msg).category = .AUTHENTICATION_FAILED) := by
  refine ⟨?_, ?_, ?_, ?_⟩
  · intro hex
    cases hf : (errorPatterns engine).find?
        (fun p => containsChars (lowerChars p.1) (lowerChars msg)) with
    | none =>
      exfalso
      obtain ⟨p, hp, hm⟩ := hex
      have hcontra := List.find?_eq_none.mp hf p hp
      simp [hm] at hcontra
    | some q =>
      refine ⟨q, List.mem_of_find?_eq_some hf, ?_, ?_⟩
      · simpa using List.find?_some hf
      · simp only [get_error]
        rw [hf]
  · intro hall hex
    have hfn : (errorPatterns engine).find?
        (fun p => containsChars (lowerChars p.1) (lowerChars msg)) = none := by
      rw [List.find?_eq_none]
      intro p hp
      simp [hall p hp]
    cases hk : errorKeywords.find? (fun k => k.kwMatch (lowerChars msg)) with
    | none =>
      exfalso
      obtain ⟨k, hkm, hm⟩ := hex
      have hcontra := List.find?_eq_none.mp hk k hkm
      simp [hm] at hcontra
    | some k =>
      refine ⟨k, List.mem_of_find?_eq_some hk, ?_, ?_⟩
      · simpa using List.find?_some hk
      · simp only [get_error]
        rw [hfn, hk]
  · intro hall hkall
    have hfn : (errorPatterns engine).find?
        (fun p => containsChars (lowerChars p.1) (lowerChars msg)) = none := by
      rw [List.find?_eq_none]
      intro p hp
      simp [hall p hp]
    have hkn : errorKeywords.find? (fun k => k.kwMatch (lowerChars msg)) = none := by
      rw [List.find?_eq_none]
      intro k hkm
      simp [hkall k hkm]
    simp only [get_error]
    rw [hfn, hkn]
  · intro h28
    simp only [get_error, errorPatterns, postgresqlErrorPatterns, List.find?_cons]
    by_cases h0 : containsChars (lowerChars "28000") (lowerChars msg) = true
    · rw [h0]
    · rw [Bool.not_eq_true] at h0
      rw [h0, h28]

/-- Witness for `C8_classifier_lookup_order`: a PostgreSQL driver message
carrying SQLSTATE 28P01 is classified as an authentication failure. -/
theorem C8_classifier_lookup_order_witness :
    (get_error .postgresql
        "FATAL: SQLSTATE 28P01 password authentication failed for user").category
      = .AUTHENTICATION_FAILED :=
  (C8_classifier_lookup_order .postgresql
    "FATAL: SQLSTATE 28P01 password authentication failed for user").2.2.2 (by decide)

/-! ## C10: configuration credential stripping -/

/-- Lookup after the string-value strip is the stripped lookup. -/
theorem cfgGet_stripStrValues (cfg : Config) (k : String) :
    cfgGet (stripStrValues cfg) k = (cfgGet cfg k).map stripVal := by
  induction cfg with
  | nil => rfl
  | cons p tl ih =>
    rw [stripStrValues, cfgGet, cfgGet]
    by_cases hk : (p.1 == k) = true
    · rw [if_pos hk, if_pos hk]
      rfl
    · rw [if_neg hk, if_neg hk]
      exact ih

/-- Popping a different key leaves a lookup unchanged. -/
theorem cfgGet_cfgPop_ne (cfg : Config) (k kp : String) (h : k ≠ kp) :
    cfgGet (cfgPop cfg kp) k = cfgGet cfg k := by
  induction cfg with
  | nil => rfl
  | cons p tl ih =>
    rw [cfgPop, cfgGet]
    by_cases hp : (p.1 == kp) = true
    · have he : p.1 = kp := by simpa using hp
      have hpk : (p.1 == k) = false := by
        rw [he]
        exact beq_eq_false_iff_ne.mpr (fun hkk => h hkk.symm)
      rw [if_pos hp, if_neg (by simp [hpk])]
      exact ih
    · rw [if_neg hp, cfgGet]
      by_cases hk : (p.1 == k) = true
      · rw [if_pos hk, if_pos hk]
      · rw [if_neg hk, if_neg hk]
        exact ih

/-- Overwriting a different key in place leaves a lookup unchanged. -/
theorem cfgGet_replaceKey_ne (cfg : Config) (k ks : String) (v0 : PyVal) (h : k ≠ ks) :
    cfgGet (cfgReplace cfg ks v0) k = cfgGet cfg k := by
  induction cfg with
  | nil => rfl
  | cons p tl ih =>
    rw [cfgReplace, cfgGet]
    by_cases hs : (p.1 == ks) = true
    · have he : p.1 = ks := by simpa using hs
      have hpk : (p.1 == k) = false := by
        rw [he]
        exact beq_eq_false_iff_ne.mpr (fun hkk => h hkk.symm)
      have hkk2 : (ks == k) = false := beq_eq_false_iff_ne.mpr (fun hkk => h hkk.symm)
      rw [if_pos hs, if_neg (by simp [hpk]), cfgGet, if_neg (by simp [hkk2])]
      exact ih
    · rw [if_neg hs, cfgGet]
      by_cases hk : (p.1 == k) = true
      · rw [if_pos hk, if_pos hk]
      · rw [if_neg hk, if_neg hk]
        exact ih

/-- Appending an entry with a different key leaves a lookup unchanged. -/
theorem cfgGet_append_single_ne (cfg : Config) (k ks : String) (v0 : PyVal) (h : k ≠ ks) :
    cfgGet (cfg ++ [(ks, v0)]) k = cfgGet cfg k := by
  induction cfg with
  | nil =>
    show cfgGet [(ks, v0)] k = cfgGet [] k
    rw [cfgGet, cfgGet,
      if_neg (by simp [beq_eq_false_iff_ne.mpr (fun hkk : ks = k => h hkk.symm)])]
    rfl
  | cons p tl ih =>
    rw [List.cons_append, cfgGet, cfgGet]
    by_cases hk : (p.1 == k) = true
    · rw [if_pos hk, if_pos hk]
    · rw [if_neg hk, if_neg hk]
      exact ih

/-- `cfg[ks] = v0` for a different key leaves a lookup unchanged. -/
theorem cfgGet_cfgSet_ne (cfg : Config) (k ks : String) (v0 : PyVal) (h : k ≠ ks) :
    cfgGet (cfgSet cfg ks v0) k = cfgGet cfg k := by
  unfold cfgSet
  by_cases ha : cfg.any (fun p => p.1 == ks) = true
  · rw [if_pos ha]
    exact cfgGet_replaceKey_ne cfg k ks v0 h
  · rw [if_neg ha]
    exact cfgGet_append_single_ne cfg k ks v0 h

/-- `setdefault` on a different key leaves a lookup unchanged. -/
theorem cfgGet_cfgSetDefault_ne (cfg : Config) (k ks : String) (v0 : PyVal) (h : k ≠ ks) :
    cfgGet (cfgSetDefault cfg ks v0) k = cfgGet cfg k := by
  unfold cfgSetDefault
  by_cases ha : cfg.any (fun p => p.1 == ks) = true
  · rw [if_pos ha]
  · rw [if_neg ha]
    exact cfgGet_append_single_ne cfg k ks v0 h

/-- The dangerous-character strip is idempotent: the connector's second
sanitization pass changes nothing. -/
theorem stripDangerousChars_idem (s : String) :
    stripDangerousChars (stripDangerousChars s) = stripDangerousChars s := by
  simp [stripDangerousChars, List.filter_filter, Bool.and_self]

/-- A string containing one of the four dangerous characters is changed by
the strip. -/
theorem stripDangerousChars_ne (s : String)
    (h : ∃ c ∈ s.data, dangerousConfigChar c = true) :
    stripDangerousChars s ≠ s := by
  intro he
  have hlen : (s.data.filter (fun c => !(dangerousConfigChar c))).length < s.data.length := by
    apply List.length_filter_lt_length_iff_exists.mpr
    obtain ⟨c, hc, hd⟩ := h
    exact ⟨c, hc, by simp [hd]⟩
  have hdata : (stripDangerousChars s).data = s.data := congrArg String.data he
  have heq : s.data.filter (fun c => !(dangerousConfigChar c)) = s.data := hdata
  rw [heq] at hlen
  exact lt_irrefl _ hlen

/-- The MySQL branch of `normalize_config`. -/
theorem normalize_config_mysql (config : Config) :
    normalize_config "mysql" config =
      cfgPop (cfgPop (cfgPop (cfgPop (cfgPop (stripStrValues config)
        "use_pure") "ssl_verify_cert") "ssl_verify_identity") "allow_local_infile") "sql_mode" := by
  simp only [normalize_config]
  rw [if_neg (by decide), if_neg (by decide), if_pos (by decide)]

/-- The MariaDB branch of `normalize_config` (same as MySQL). -/
theorem normalize_config_mariadb (config : Config) :
    normalize_config "mariadb" config =
      cfgPop (cfgPop (cfgPop (cfgPop (cfgPop (stripStrValues config)
        "use_pure") "ssl_verify_cert") "ssl_verify_identity") "allow_local_infile") "sql_mode" := by
  simp only [normalize_config]
  rw [if_neg (by decide), if_neg (by decide), if_pos (by decide)]

/-- The PostgreSQL branch of `normalize_config`. -/
theorem normalize_config_postgresql (config : Config) :
    normalize_config "postgresql" config =
      cfgPop (cfgPop (cfgPop (cfgPop
        (cfgSetDefault (cfgSetDefault
          (match cfgGet (stripStrValues config) "username" with
           | some v => cfgSet (cfgPop (stripStrValues config) "username") "user" v
           | Option.none => stripStrValues config)
          "connect_timeout" (.int 10)) "client_encoding" (.str "utf8"))
        "sslmode") "sslcert") "sslkey") "sslrootcert" := by
  simp only [normalize_config]
  rw [if_pos (by decide)]

/-- The Oracle branch of `normalize_config`. -/
theorem normalize_config_oracle (config : Config) :
    normalize_config "oracle" config =
      cfgSetDefault (cfgSetDefault (cfgSetDefault
        (match cfgGet (stripStrValues config) "service_name",
               cfgGet (stripStrValues config) "database" with
         | Option.none, some v => cfgSet (cfgPop (stripStrValues config) "database") "service_name" v
         | _, _ => stripStrValues config)
        "encoding" (.str "UTF-8")) "nencoding" (.str "UTF-8")) "ssl_server_dn_match" (.bool true) := by
  simp only [normalize_config]
  rw [if_neg (by decide), if_pos (by decide)]

/-- C10: for every supported engine tag, every string-valued configuration
field is silently stripped of semicolon, single-quote, double-quote and
backslash characters before any connection attempt (once in
`normalize_config` and again — idempotently — in the connector's
`_sanitize_config`); in particular the password the connector will present
is the stripped password, so whenever the caller's password contains one of
the four characters, authentication is never attempted with the credential
as provided — and a server requiring that exact credential can never accept
the probe, so the registration cannot pass its connectivity test. -/
theorem C10_credentials_stripped (engine : Engine) (config : Config) (pw : String)
    (hpw : cfgGet config "password" = some (.str pw)) :
    (∀ k s, cfgGet config k = some (.str s) →
        cfgGet (stripStrValues config) k = some (.str (stripDangerousChars s)))
    ∧ get_connector_config engine.tag config =
        .ok (sanitize_config (normalize_config engine.tag config))
    ∧ cfgGet (sanitize_config (normalize_config engine.tag config)) "password"
        = some (.str (stripDangerousChars pw))
    ∧ ((∃ c ∈ pw.data, dangerousConfigChar c = true) →
        cfgGet (sanitize_config (normalize_config engine.tag config)) "password"
          ≠ some (.str pw)) := by
  have hbase : ∀ cfg : Config, ∀ k s, cfgGet cfg k = some (.str s) →
      cfgGet (stripStrValues cfg) k = some (.str (stripDangerousChars s)) := by
    intro cfg k s hk
    rw [cfgGet_stripStrValues, hk]
    rfl
  have hstrip := hbase config "password" pw hpw
  have hnorm : cfgGet (normalize_config engine.tag config) "password"
      = some (.str (stripDangerousChars pw)) := by
    cases engine with
    | mysql =>
      rw [show Engine.mysql.tag = "mysql" from rfl, normalize_config_mysql,
          cfgGet_cfgPop_ne _ _ _ (by decide), cfgGet_cfgPop_ne _ _ _ (by decide),
          cfgGet_cfgPop_ne _ _ _ (by decide), cfgGet_cfgPop_ne _ _ _ (by decide),
          cfgGet_cfgPop_ne _ _ _ (by decide)]
      exact hstrip
    | mariadb =>
      rw [show Engine.mariadb.tag = "mariadb" from rfl, normalize_config_mariadb,
          cfgGet_cfgPop_ne _ _ _ (by decide), cfgGet_cfgPop_ne _ _ _ (by decide),
          cfgGet_cfgPop_ne _ _ _ (by decide), cfgGet_cfgPop_ne _ _ _ (by decide),
          cfgGet_cfgPop_ne _ _ _ (by decide)]
      exact hstrip
    | postgresql =>
      rw [show Engine.postgresql.tag = "postgresql" from rfl, normalize_config_postgresql,
          cfgGet_cfgPop_ne _ _ _ (by decide), cfgGet_cfgPop_ne _ _ _ (by decide),
          cfgGet_cfgPop_ne _ _ _ (by decide), cfgGet_cfgPop_ne _ _ _ (by decide),
          cfgGet_cfgSetDefault_ne _ _ _ _ (by decide), cfgGet_cfgSetDefault_ne _ _ _ _ (by decide)]
      cases hu : cfgGet (stripStrValues config) "username" with
      | none => exact hstrip
      | some v =>
        show cfgGet (cfgSet (cfgPop (stripStrValues config) "username") "user" v) "password"
          = some (.str (stripDangerousChars pw))
        rw [cfgGet_cfgSet_ne _ _ _ _ (by decide), cfgGet_cfgPop_ne _ _ _ (by decide)]
        exact hstrip
    | oracle =>
      rw [show Engine.oracle.tag = "oracle" from rfl, normalize_config_oracle,
          cfgGet_cfgSetDefault_ne _ _ _ _ (by decide), cfgGet_cfgSetDefault_ne _ _ _ _ (by decide),
          cfgGet_cfgSetDefault_ne _ _ _ _ (by decide)]
      cases hs1 : cfgGet (stripStrValues config) "service_name" with
      | some v => exact hstrip
      | none =>
        cases hd1 : cfgGet (stripStrValues config) "database" with
        | none => exact hstrip
        | some v =>
          show cfgGet (cfgSet (cfgPop (stripStrValues config) "database") "service_name" v)
              "password" = some (.str (stripDangerousChars pw))
          rw [cfgGet_cfgSet_ne _ _ _ _ (by decide), cfgGet_cfgPop_ne _ _ _ (by decide)]
          exact hstrip
  have hsan : cfgGet (sanitize_config (normalize_config engine.tag config)) "password"
      = some (.str (stripDangerousChars pw)) := by
    unfold sanitize_config
    rw [cfgGet_stripStrValues, hnorm]
    simp [stripVal, stripDangerousChars_idem]
  refine ⟨hbase config, ?_, hsan, ?_⟩
  · unfold get_connector_config
    rw [if_pos (by cases engine <;> decide)]
  · intro hex he
    rw [hsan] at he
    have heq : stripDangerousChars pw = pw := by simpa using he
    exact stripDangerousChars_ne pw hex heq

/-- Witness for `C10_credentials_stripped`: a PostgreSQL registration whose
password contains a semicolon reaches the connector stripped. -/
theorem C10_credentials_stripped_witness :
    cfgGet (sanitize_config (normalize_config Engine.postgresql.tag
        [("username", PyVal.str "admin"), ("password", PyVal.str "p;w")])) "password"
      = some (.str (stripDangerousChars "p;w")) :=
  (C10_credentials_stripped .postgresql
    [("username", PyVal.str "admin"), ("password", PyVal.str "p;w")] "p;w" (by decide)).2.2.1

end Accura8
